import Mathlib

/-!
Shallow embedding of `test-cases/generate_test_case.py`: the FRI step-list
computation, the step-count extractor, the prover-configuration synthesizer
and the pipeline driver, together with theorems about their behaviour.

Modelling conventions:
* Python integers are `Int`; quantities that are naturally non-negative stay
  `Int` where the source manipulates them as plain `int`s.
* `ceil_log2` is the exact ceiling of the base-2 logarithm (proved equal to
  `Nat.clog 2`) — the value the source's docstring formula intends for
  `math.ceil(math.log(n, 2))`. The source evaluates that expression in
  floating point, which diverges from the exact value at some inputs (on
  CPython, `math.ceil(math.log(2 ** 29, 2))` is 30, not 29), so theorems
  that depend on which integer total the program actually computed are
  stated over every possible integer total via `fri_decompose`, the pure
  integer decomposition tail of the function, which is faithful to the
  program independently of the floating-point logarithms.
* Python's `divmod` is floored division: `Int.fdiv` / `Int.fmod`.
* Strings are processed at the character level (structurally recursive
  functions on `List Char`) so that every definition evaluates in the kernel.
* File-system writes and subprocess invocations are modelled as a trace of
  events produced by a pure driver function over an environment `ToolEnv`
  recording the outcomes of the three external tools.
-/

namespace GenerateTestCase

/-- Fuel-based ceiling of the base-2 logarithm, written so that it reduces in
the kernel; `clog2_fuel fuel n` is correct whenever `n ≤ fuel`
(see `clog2_fuel_eq_clog`). -/
def clog2_fuel : Nat → Nat → Nat
  | 0, _ => 0
  | fuel + 1, n => if n ≤ 1 then 0 else clog2_fuel fuel ((n + 1) / 2) + 1

/-- The exact ceiling of the base-2 logarithm of a positive integer `n`
(proved equal to `Nat.clog 2` in `ceil_log2_eq_clog`) — the value the source's
docstring formula intends for `math.ceil(math.log(n, 2))` (lines 125-126;
`math.log` requires a positive argument). CPython evaluates the expression in
floating point, which diverges from this exact value at some inputs (e.g.
`n = 2 ^ 29` gives 30 instead of 29); see `fri_float_divergence`. -/
def ceil_log2 (n : Int) : Int := (clog2_fuel n.toNat n.toNat : Nat)

/-- Source, lines 129-134: the decomposition of the already-computed total
`sigma_fri_step_list` into the step list — `(q, r) = divmod(sigma, 4)` with
Python's floored division, `[4] * q` (empty for negative `q`: `Int.toNat`
clamps to zero), plus `r` when positive. This tail is pure integer
arithmetic, so it is faithful to the program for every integer value of the
computed total, independently of the floating-point logarithms that produced
that value. -/
def fri_decompose (sigma_fri_step_list : Int) : List Int :=
  let q := sigma_fri_step_list.fdiv 4
  let r := sigma_fri_step_list.fmod 4
  let fri_step_list := List.replicate q.toNat (4 : Int)
  if 0 < r then fri_step_list ++ [r] else fri_step_list

/-- Source, lines 111-134 (`compute_fri_step_list`): computes the FRI steps
list from the number of Cairo steps and the last layer degree bound. The two
logarithms are modelled by `ceil_log2` (the exact intended value — see its
doc comment for the floating-point caveat) and the integer tail by
`fri_decompose`. -/
def compute_fri_step_list (nb_steps last_layer_degree_bound : Int) : List Int :=
  let program_n_steps_log := ceil_log2 nb_steps
  let last_layer_degree_bound_log := ceil_log2 last_layer_degree_bound
  let sigma_fri_step_list := program_n_steps_log + 4 - last_layer_degree_bound_log
  fri_decompose sigma_fri_step_list

/-- The total degree-reduction target `ceil(log2(stepCount)) + 4 -
ceil(log2(lastLayerDegreeBound))` (the `sigma_fri_step_list` of the source). -/
def fri_total (nb_steps last_layer_degree_bound : Int) : Int :=
  ceil_log2 nb_steps + 4 - ceil_log2 last_layer_degree_bound

/-- Splits a character list into lines at newline characters; models Python's
`str.splitlines()` for reports whose line terminators are `\n` (no trailing
empty line when the text ends with a newline, `[]` for the empty text). -/
def split_lines_chars : List Char → List (List Char)
  | [] => []
  | c :: cs =>
    if c = '\n' then [] :: split_lines_chars cs
    else
      match split_lines_chars cs with
      | [] => [[c]]
      | l :: ls => (c :: l) :: ls

/-- Models `run_stdout.splitlines()` (source, line 44). -/
def split_lines (s : String) : List String :=
  (split_lines_chars s.data).map fun cs => String.mk cs

/-- Anchored literal-prefix match: `drop_marker pat cs` returns the rest of
`cs` after the literal pattern `pat`, or `none` when `cs` does not start with
`pat`. Used to model the literal part of the regular expression. -/
def drop_marker : List Char → List Char → Option (List Char)
  | [], cs => some cs
  | _ :: _, [] => none
  | m :: ms, c :: cs => if c = m then drop_marker ms cs else none

/-- Value of a run of decimal digits; models `int(m.group(1))`. -/
def digits_to_nat (ds : List Char) : Nat :=
  ds.foldl (fun n c => 10 * n + (c.toNat - 48)) 0

/-- Models `re.match(r"Number of steps: (\d+).*", line)` followed by
`int(m.group(1))` (source, lines 45-46): the match succeeds exactly when the
line starts with the literal `"Number of steps: "` followed by at least one
digit, and group 1 is the maximal digit run at that position (`\d+` is
greedy; the trailing `.*` matches the rest of the line). `\d` is modelled as
the ASCII digits. -/
def parse_steps_line (line : String) : Option Int :=
  match drop_marker "Number of steps: ".data line.data with
  | none => none
  | some rest =>
    let digits := rest.takeWhile Char.isDigit
    if digits.isEmpty then none
    else some ((digits_to_nat digits : Nat) : Int)

/-- Source, lines 36-50 (`get_nb_steps`): extracts the number of steps from
the output of `cairo-run`, scanning line by line from the start and returning
the first match; raising `ValueError` is modelled as `Except.error` with the
source's message. -/
def get_nb_steps (run_stdout : String) : Except String Int :=
  match (split_lines run_stdout).findSome? parse_steps_line with
  | some n => Except.ok n
  | none =>
    Except.error
      "Could not find number of steps in the run output. Is --print_info set?"

/-- Source, lines 27-33 (`ExecutionArtifacts`): paths are strings, `nb_steps`
a Python integer. -/
structure ExecutionArtifacts where
  public_input : String
  private_input : String
  memory : String
  trace : String
  nb_steps : Int
deriving DecidableEq

/-- Environment of a pipeline run: the outcomes of the three external tool
invocations (exit codes; the captured standard output of `cairo-run`). The
tools are opaque external processes, so their behaviour is an input of the
model. -/
structure ToolEnv where
  compile_returncode : Nat
  run_returncode : Nat
  run_stdout : String
  prover_returncode : Nat
deriving DecidableEq

/-- Error taxonomy of the driver: `RuntimeError` on bad inputs,
`CalledProcessError` from `check_returncode()` on a non-zero tool exit, and
`ValueError` from `get_nb_steps`. -/
inductive PipelineError where
  | invalid_input (msg : String)
  | external_tool_failure (tool : String)
  | parse_error (msg : String)
deriving DecidableEq

/-- Source, lines 53-108 (`run_cairo_program`): builds the artifact paths from
the output directory and program name, fails when `cairo-run` exits non-zero
(`result.check_returncode()`), otherwise extracts the step count from the
captured standard output and returns the artifacts. -/
def run_cairo_program (env : ToolEnv) (output_dir : String) (program_name : String) :
    Except PipelineError ExecutionArtifacts :=
  let public_input_file := output_dir ++ "/" ++ program_name ++ "_public_input.json"
  let private_input_file := output_dir ++ "/" ++ program_name ++ "_private_input.json"
  let memory_file := output_dir ++ "/" ++ program_name ++ "_memory.bin"
  let trace_file := output_dir ++ "/" ++ program_name ++ "_trace.bin"
  if env.run_returncode ≠ 0 then
    Except.error (PipelineError.external_tool_failure "cairo-run")
  else
    match get_nb_steps env.run_stdout with
    | Except.error msg => Except.error (PipelineError.parse_error msg)
    | Except.ok nb_steps =>
      Except.ok
        { public_input := public_input_file
          private_input := private_input_file
          memory := memory_file
          trace := trace_file
          nb_steps := nb_steps }

/-- The `cached_lde_config` sub-document (source, line 152). -/
structure CachedLdeConfig where
  store_full_lde : Bool
  use_fft_for_eval : Bool
deriving DecidableEq

/-- The engine-tuning document `config` (source, lines 151-156). -/
structure ProverConfig where
  cached_lde_config : CachedLdeConfig
  constraint_polynomial_task_size : Int
  n_out_of_memory_merkle_layers : Int
  table_prover_n_tasks_per_segment : Int
deriving DecidableEq

/-- The `fri` sub-document of the parameters (source, lines 163-168). -/
structure FriParameters where
  fri_step_list : List Int
  last_layer_degree_bound : Int
  n_queries : Int
  proof_of_work_bits : Int
deriving DecidableEq

/-- The `stark` sub-document of the parameters (source, lines 162-170). -/
structure StarkParameters where
  fri : FriParameters
  log_n_cosets : Int
deriving DecidableEq

/-- The cryptographic-parameter document `parameters` (source, lines 160-172);
`field` is the JSON key of the same name. -/
structure ProverParameters where
  field : String
  stark : StarkParameters
  use_extension_field : Bool
deriving DecidableEq

def render_bool (b : Bool) : String := if b then "true" else "false"

def render_int_list (xs : List Int) : String :=
  "[" ++ String.intercalate ", " (xs.map toString) ++ "]"

/-- Deterministic serialization of the engine-tuning document, modelling the
byte output of `json.dump(config, f, indent=2)` (a pure function of the
document; the exact whitespace layout of `json.dump` is immaterial to every
property below, only its determinism and injectivity on the fields). -/
def ProverConfig.render (c : ProverConfig) : String :=
  "\x7b\"cached_lde_config\": \x7b\"store_full_lde\": "
    ++ render_bool c.cached_lde_config.store_full_lde
    ++ ", \"use_fft_for_eval\": " ++ render_bool c.cached_lde_config.use_fft_for_eval
    ++ "\x7d, \"constraint_polynomial_task_size\": "
    ++ toString c.constraint_polynomial_task_size
    ++ ", \"n_out_of_memory_merkle_layers\": "
    ++ toString c.n_out_of_memory_merkle_layers
    ++ ", \"table_prover_n_tasks_per_segment\": "
    ++ toString c.table_prover_n_tasks_per_segment
    ++ "\x7d"

/-- Deterministic serialization of the cryptographic-parameter document,
modelling the byte output of `json.dump(parameters, f, indent=2)`. -/
def ProverParameters.render (p : ProverParameters) : String :=
  "\x7b\"field\": \"" ++ p.field
    ++ "\", \"stark\": \x7b\"fri\": \x7b\"fri_step_list\": "
    ++ render_int_list p.stark.fri.fri_step_list
    ++ ", \"last_layer_degree_bound\": " ++ toString p.stark.fri.last_layer_degree_bound
    ++ ", \"n_queries\": " ++ toString p.stark.fri.n_queries
    ++ ", \"proof_of_work_bits\": " ++ toString p.stark.fri.proof_of_work_bits
    ++ "\x7d, \"log_n_cosets\": " ++ toString p.stark.log_n_cosets
    ++ "\x7d, \"use_extension_field\": " ++ render_bool p.use_extension_field
    ++ "\x7d"

/-- Source, lines 137-180 (`generate_prover_config`): builds the two
configuration documents and their paths in the output directory; returns
`((config path, config document), (params path, params document))`, the
documents standing for the bytes written by the two `json.dump` calls. -/
def generate_prover_config (artifacts : ExecutionArtifacts) (output_dir : String) :
    (String × String) × (String × String) :=
  let config_file := output_dir ++ "/cpu_air_prover_config.json"
  let parameter_file := output_dir ++ "/cpu_air_params.json"
  let config : ProverConfig :=
    { cached_lde_config := { store_full_lde := false, use_fft_for_eval := false }
      constraint_polynomial_task_size := 256
      n_out_of_memory_merkle_layers := 1
      table_prover_n_tasks_per_segment := 32 }
  let last_layer_degree_bound : Int := 64
  let fri_step_list := compute_fri_step_list artifacts.nb_steps last_layer_degree_bound
  let parameters : ProverParameters :=
    { field := "PrimeField0"
      stark :=
        { fri :=
            { fri_step_list := fri_step_list
              last_layer_degree_bound := last_layer_degree_bound
              n_queries := 18
              proof_of_work_bits := 24 }
          log_n_cosets := 4 }
      use_extension_field := false }
  ((config_file, config.render), (parameter_file, parameters.render))

/-- Splits a character list at every occurrence of a separator character;
models Python's `str.split(sep)` (always at least one piece). Used for the
path components of `pathlib.Path`. -/
def split_on_char (sep : Char) : List Char → List (List Char)
  | [] => [[]]
  | c :: cs =>
    if c = sep then [] :: split_on_char sep cs
    else
      match split_on_char sep cs with
      | [] => [[c]]
      | l :: ls => (c :: l) :: ls

/-- Final component of a slash-separated path; models `Path(p).name` for
ordinary relative/absolute paths. -/
def path_file_name (p : String) : String :=
  String.mk ((split_on_char '/' p.data).getLastD [])

/-- Models `Path(p).stem`: the final path component without its last
dot-extension. -/
def path_stem (p : String) : String :=
  let name := (split_on_char '/' p.data).getLastD []
  match split_on_char '.' name with
  | [] => String.mk name
  | [_] => String.mk name
  | parts => String.mk (List.intercalate ['.'] parts.dropLast)

/-- Observable driver actions, in execution order: the successful file copy
into the output directory, the three external-tool invocations (with the
paths handed to them) and the write of the two configuration documents. The
proof file is written by the external prover, so a run in which the prover is
never invoked creates no proof file. -/
inductive PipelineEvent where
  | program_copied (dst : String)
  | compiler_invoked (source_path : String) (output_path : String)
  | runner_invoked (compiled_path : String)
  | config_written (config_path : String) (params_path : String)
  | prover_invoked (proof_path : String)
deriving DecidableEq

def PipelineEvent.is_program_copied : PipelineEvent → Bool
  | PipelineEvent.program_copied _ => true
  | _ => false

def PipelineEvent.is_config_written : PipelineEvent → Bool
  | PipelineEvent.config_written _ _ => true
  | _ => false

def PipelineEvent.is_prover_invoked : PipelineEvent → Bool
  | PipelineEvent.prover_invoked _ => true
  | _ => false

/-- Result of a pipeline run: the ordered trace of driver actions that
happened before termination, and either the proof file path or the error that
aborted the run. -/
structure MainResult where
  events : List PipelineEvent
  result : Except PipelineError String

/-- Source, lines 216-260 (`main`): validates the inputs, copies the program
into the output directory (`shutil.SameFileError` — raised exactly when source
and destination are the same file, modelled as equal paths — is caught and
ignored), then compiles, runs, synthesizes the configuration and proves.
`program_is_file` and `program_input_is_file` model the `Path.is_file()`
checks; each stage appends its events and any failure stops the run with the
events accumulated so far. -/
def main (env : ToolEnv) (program : String) (program_is_file : Bool)
    (program_input : Option String) (program_input_is_file : Bool)
    (output_dir : String) : MainResult :=
  if ¬ program_is_file then
    { events := []
      result := Except.error
        (PipelineError.invalid_input ("Program " ++ program ++ " is not a file")) }
  else if program_input.isSome && !program_input_is_file then
    { events := []
      result := Except.error
        (PipelineError.invalid_input "Program input file is not a file") }
  else
    let program_name := path_stem program
    let copy_dst := output_dir ++ "/" ++ path_file_name program
    let copy_events :=
      if program = copy_dst then [] else [PipelineEvent.program_copied copy_dst]
    let compiled_program_path := output_dir ++ "/" ++ program_name ++ "_compiled.json"
    let ev1 := copy_events ++ [PipelineEvent.compiler_invoked program compiled_program_path]
    if env.compile_returncode ≠ 0 then
      { events := ev1
        result := Except.error (PipelineError.external_tool_failure "cairo-compile") }
    else
      let ev2 := ev1 ++ [PipelineEvent.runner_invoked compiled_program_path]
      match run_cairo_program env output_dir program_name with
      | Except.error e => { events := ev2, result := Except.error e }
      | Except.ok artifacts =>
        let cfg := generate_prover_config artifacts output_dir
        let ev3 := ev2 ++ [PipelineEvent.config_written cfg.1.1 cfg.2.1]
        let proof_file := output_dir ++ "/" ++ program_name ++ "_proof.json"
        let ev4 := ev3 ++ [PipelineEvent.prover_invoked proof_file]
        if env.prover_returncode ≠ 0 then
          { events := ev4
            result := Except.error (PipelineError.external_tool_failure "cpu_air_prover") }
        else { events := ev4, result := Except.ok proof_file }

end GenerateTestCase

open GenerateTestCase

/-! ## Helper lemmas -/

/-- `clog2_fuel` computes `Nat.clog 2` given enough fuel. -/
theorem clog2_fuel_eq_clog : ∀ fuel n, n ≤ fuel → clog2_fuel fuel n = Nat.clog 2 n := by
  intro fuel
  induction fuel with
  | zero =>
    intro n hn
    have : n = 0 := Nat.le_zero.mp hn
    subst this
    simp [clog2_fuel]
  | succ f ih =>
    intro n hn
    by_cases h1 : n ≤ 1
    · simp [clog2_fuel, h1, Nat.clog_of_right_le_one h1]
    · have h2 : 2 ≤ n := by omega
      rw [clog2_fuel, if_neg h1, ih ((n + 1) / 2) (by omega),
        Nat.clog_of_two_le (by norm_num) h2]
      norm_num

/-- `ceil_log2` agrees with Mathlib's ceiling logarithm. -/
theorem ceil_log2_eq_clog (n : Int) : ceil_log2 n = (Nat.clog 2 n.toNat : Int) := by
  unfold ceil_log2
  rw [clog2_fuel_eq_clog n.toNat n.toNat (Nat.le_refl _)]

/-- Closed form of `fri_decompose`. -/
theorem fri_decompose_eq (t : Int) :
    fri_decompose t =
      List.replicate (t.fdiv 4).toNat (4 : Int) ++
        (if 0 < t.fmod 4 then [t.fmod 4] else []) := by
  unfold fri_decompose
  by_cases h : 0 < t.fmod 4 <;> simp [h]

theorem fri_decomp (t : Int) : 4 * t.fdiv 4 + t.fmod 4 = t := Int.fdiv_add_fmod t 4

theorem fmod4_nonneg (t : Int) : 0 ≤ t.fmod 4 := Int.fmod_nonneg' t (by norm_num)

theorem fmod4_lt (t : Int) : t.fmod 4 < 4 := Int.fmod_lt_of_pos t (by norm_num)

/-- Shared helper: when the computed total is non-positive the `[4] * q` part
is empty and the result is the floored remainder alone (or nothing). -/
theorem fri_decompose_of_nonpos (t : Int) (h : t ≤ 0) :
    fri_decompose t = if 0 < t.fmod 4 then [t.fmod 4] else [] := by
  rw [fri_decompose_eq]
  have h1 := fri_decomp t
  have h2 := fmod4_nonneg t
  have h3 := fmod4_lt t
  have hq : t.fdiv 4 ≤ 0 := by omega
  rw [Int.toNat_eq_zero.mpr hq]
  simp

theorem clog2_pow29 : Nat.clog 2 536870912 = 29 := by
  have h : (536870912 : Nat) = 2 ^ 29 := by norm_num
  rw [h, Nat.clog_pow 2 29 (by norm_num)]

theorem clog2_64 : Nat.clog 2 64 = 6 := by
  have h : (64 : Nat) = 2 ^ 6 := by norm_num
  rw [h, Nat.clog_pow 2 6 (by norm_num)]

/-- The exact total at `stepCount = 2 ^ 29 = 536870912`, `bound = 64` is
`29 + 4 - 6 = 27`. -/
theorem fri_total_pow29 : fri_total 536870912 64 = 27 := by
  unfold fri_total
  rw [ceil_log2_eq_clog, ceil_log2_eq_clog]
  have h1 : ((536870912 : Int)).toNat = 536870912 := rfl
  have h2 : ((64 : Int)).toNat = 64 := rfl
  rw [h1, h2, clog2_pow29, clog2_64]
  norm_num

/-! ## Claim theorems -/

/-- C1 (code bug): at the failing input `stepCount = 2 ^ 29 = 536870912`,
`bound = 64`, the total required by the claim — and by the source's own
docstring formula `∑fri_step_list = log₂(#steps) + 4 - log₂(bound)` — is
`29 + 4 - 6 = 27`, and the intended exact computation returns
`[4, 4, 4, 4, 4, 4, 3]`, summing to 27. CPython instead evaluates
`math.ceil(math.log(2 ** 29, 2))` to 30 (the float `log(2 ** 29) / log(2)`
rounds up to `29.000000000000004`), so the program's computed total is 28 and
its decomposition `fri_decompose 28 = [4] * 7` sums to 28, violating the
claimed invariant (and at `2 ^ 49 + 1` the float rounds down, making the
program's sum fall short of the required total). -/
theorem fri_float_divergence :
    fri_total 536870912 64 = 27
    ∧ compute_fri_step_list 536870912 64 = [4, 4, 4, 4, 4, 4, 3]
    ∧ fri_decompose 28 = List.replicate 7 (4 : Int)
    ∧ (fri_decompose 28).sum = 28
    ∧ (fri_decompose 28).sum ≠ fri_total 536870912 64 := by
  have hfac : compute_fri_step_list 536870912 64 =
      fri_decompose (fri_total 536870912 64) := rfl
  refine ⟨fri_total_pow29, ?_, by decide, by decide, ?_⟩
  · rw [hfac, fri_total_pow29]
    decide
  · rw [fri_total_pow29]
    decide

/-- C2 counterexample: at `stepCount = 2`, `bound = 64` the total is `-1 ≤ 0`
but the function returns `[3]`, not the empty list. -/
theorem compute_fri_step_list_nonpos_counterexample :
    0 < (2 : Int) ∧ 0 < (64 : Int) ∧ fri_total 2 64 ≤ 0
    ∧ compute_fri_step_list 2 64 = [3]
    ∧ compute_fri_step_list 2 64 ≠ [] := by decide

/-- C2 (amended): the list returned by `compute_fri_step_list` is
`fri_decompose` applied to the computed total `sigma_fri_step_list`, and for
every non-positive integer value `t` of that computed total (whichever
integer the floating-point logarithms produced) the function returns —
without raising — the single-element list holding the Python floored
remainder `t mod 4` when that remainder is positive, and the empty list
otherwise (i.e. exactly when `t` is a multiple of 4). In particular
`stepCount = 4`, `bound = 64` (computed total 0, where the floats are exact)
still yields the empty schedule, as the witness shows. -/
theorem fri_step_list_nonpos_total (t : Int) (h : t ≤ 0) :
    (∀ s b : Int, compute_fri_step_list s b = fri_decompose (fri_total s b))
    ∧ fri_decompose t = if 0 < t.fmod 4 then [t.fmod 4] else [] :=
  ⟨fun _ _ => rfl, fri_decompose_of_nonpos t h⟩

/-- Witness for C2 (amended) at computed total `fri_total 4 64 = 0`
(`stepCount = 4`, `bound = 64`): the schedule is empty. -/
theorem fri_step_list_nonpos_total_witness :
    fri_total 4 64 ≤ 0
    ∧ ((∀ s b : Int, compute_fri_step_list s b = fri_decompose (fri_total s b))
        ∧ fri_decompose (fri_total 4 64) =
            (if 0 < (fri_total 4 64).fmod 4 then [(fri_total 4 64).fmod 4] else []))
    ∧ compute_fri_step_list 4 64 = [] :=
  ⟨by decide, fri_step_list_nonpos_total (fri_total 4 64) (by decide), by decide⟩

/-- C10: the list returned by `compute_fri_step_list` is `fri_decompose`
applied to the computed total `sigma_fri_step_list`, and for every integer
value `t` of that computed total (whichever value the program's
floating-point logarithms produced) every element of `fri_decompose t` lies
in `[1, 4]` — so the returned list never contains a zero, negative or
greater-than-4 element — and when the computed total is negative the result
is the single-element list holding the Python floored remainder `t mod 4` (or
empty when that remainder is 0). -/
theorem compute_fri_step_list_range (t : Int) :
    (∀ s b : Int, compute_fri_step_list s b = fri_decompose (fri_total s b))
    ∧ (∀ x ∈ fri_decompose t, 1 ≤ x ∧ x ≤ 4)
    ∧ (t < 0 →
        fri_decompose t = if 0 < t.fmod 4 then [t.fmod 4] else []) := by
  refine ⟨fun _ _ => rfl, ?_, fun h => fri_decompose_of_nonpos t (le_of_lt h)⟩
  intro x hx
  rw [fri_decompose_eq] at hx
  have h2 := fmod4_nonneg t
  have h3 := fmod4_lt t
  rcases List.mem_append.1 hx with h | h
  · have := List.eq_of_mem_replicate h
    omega
  · by_cases hr : 0 < t.fmod 4
    · rw [if_pos hr] at h
      have : x = t.fmod 4 := List.mem_singleton.mp h
      omega
    · rw [if_neg hr] at h
      exact absurd h (List.not_mem_nil x)

/-- Witness for C10 at computed total `-1` (e.g. `stepCount = 2`,
`bound = 64`, where the floats are exact): remainder 3, schedule `[3]`. -/
theorem compute_fri_step_list_range_witness :
    (∀ s b : Int, compute_fri_step_list s b = fri_decompose (fri_total s b))
    ∧ (∀ x ∈ fri_decompose (-1), 1 ≤ x ∧ x ≤ 4)
    ∧ ((-1 : Int) < 0 →
        fri_decompose (-1) = if 0 < (-1 : Int).fmod 4 then [(-1 : Int).fmod 4] else []) :=
  compute_fri_step_list_range (-1)

/-! ## Step extractor -/

theorem get_nb_steps_eq_ok (s : String) (n : Int)
    (h : (split_lines s).findSome? parse_steps_line = some n) :
    get_nb_steps s = Except.ok n := by
  unfold get_nb_steps
  rw [h]

theorem get_nb_steps_eq_error (s : String)
    (h : (split_lines s).findSome? parse_steps_line = none) :
    get_nb_steps s =
      Except.error
        "Could not find number of steps in the run output. Is --print_info set?" := by
  unfold get_nb_steps
  rw [h]

/-- C3: for every report whose line decomposition has a first matching line
`l` (every earlier line fails the pattern) with parsed value `n`, the
extractor returns `n`; the report containing the line
`"Number of steps: 777 (extra text)"` of the witness yields 777. -/
theorem get_nb_steps_first_match (s : String) (pre : List String) (l : String)
    (post : List String) (n : Int)
    (hsplit : split_lines s = pre ++ l :: post)
    (hpre : ∀ x ∈ pre, parse_steps_line x = none)
    (hl : parse_steps_line l = some n) :
    get_nb_steps s = Except.ok n := by
  apply get_nb_steps_eq_ok
  rw [hsplit, List.findSome?_append, List.findSome?_eq_none_iff.mpr hpre,
    List.findSome?_cons_of_isSome _ (hl ▸ rfl), hl]
  rfl

/-- Witness for C3: a three-line report whose middle line is
`"Number of steps: 777 (extra text)"` yields 777. -/
theorem get_nb_steps_first_match_witness :
    get_nb_steps "foo\nNumber of steps: 777 (extra text)\nbar" = Except.ok 777 :=
  get_nb_steps_first_match _ ["foo"] "Number of steps: 777 (extra text)" ["bar"] 777
    (by decide) (by decide) (by decide)

/-- C4: the extractor fails (with the `ValueError` message) iff no line of the
report matches the pattern, and returns normally iff some line matches. -/
theorem get_nb_steps_error_iff (s : String) :
    ((∃ msg, get_nb_steps s = Except.error msg) ↔
      ∀ l ∈ split_lines s, parse_steps_line l = none)
    ∧ ((∃ n, get_nb_steps s = Except.ok n) ↔
      ¬ ∀ l ∈ split_lines s, parse_steps_line l = none) := by
  cases h : (split_lines s).findSome? parse_steps_line with
  | none =>
    have hall := List.findSome?_eq_none_iff.mp h
    rw [get_nb_steps_eq_error s h]
    refine ⟨⟨fun _ => hall, fun _ => ⟨_, rfl⟩⟩, ?_, ?_⟩
    · rintro ⟨n, hn⟩
      cases hn
    · intro hcon
      exact absurd hall hcon
  | some n =>
    have hnotall : ¬ ∀ l ∈ split_lines s, parse_steps_line l = none := by
      intro hall
      rw [List.findSome?_eq_none_iff.mpr hall] at h
      cases h
    rw [get_nb_steps_eq_ok s n h]
    constructor
    · simp [hnotall]
    · simp [hnotall]

/-- `parse_steps_line` only produces non-negative values (the regex group is a
digit string). -/
theorem parse_steps_line_nonneg (l : String) (n : Int)
    (h : parse_steps_line l = some n) : 0 ≤ n := by
  unfold parse_steps_line at h
  cases hd : drop_marker "Number of steps: ".data l.data with
  | none => rw [hd] at h; cases h
  | some rest =>
    rw [hd] at h
    by_cases he : (rest.takeWhile Char.isDigit).isEmpty
    · simp only [he, if_true] at h
      cases h
    · simp only [he, if_false] at h
      have := (Option.some.injEq _ _).mp h
      subst this
      exact Int.natCast_nonneg _

/-- A successful extraction is always non-negative. -/
theorem get_nb_steps_nonneg (s : String) (n : Int)
    (h : get_nb_steps s = Except.ok n) : 0 ≤ n := by
  unfold get_nb_steps at h
  cases hf : (split_lines s).findSome? parse_steps_line with
  | none => rw [hf] at h; cases h
  | some m =>
    rw [hf] at h
    have hmn : m = n := by cases h; rfl
    subst hmn
    obtain ⟨l, _, hl⟩ := List.exists_of_findSome?_eq_some hf
    exact parse_steps_line_nonneg l m hl

/-- C7 counterexample: a run whose report line is `"Number of steps: 0"`
produces `ExecutionArtifacts` with step count 0, which is not positive. -/
theorem run_cairo_program_zero_steps :
    ∃ a, run_cairo_program ⟨0, 0, "Number of steps: 0", 0⟩ "out" "fib" = Except.ok a
      ∧ ¬ 0 < a.nb_steps :=
  ⟨⟨"out/fib_public_input.json", "out/fib_private_input.json",
    "out/fib_memory.bin", "out/fib_trace.bin", 0⟩, rfl, by decide⟩

/-- C7 (amended): every `ExecutionArtifacts` constructed by the pipeline has a
non-negative step count, equal to the value the Step Extractor parsed from the
runner's report; the code does not additionally rule out a zero step count. -/
theorem run_cairo_program_nb_steps_nonneg (env : ToolEnv) (dir name : String)
    (a : ExecutionArtifacts) (h : run_cairo_program env dir name = Except.ok a) :
    0 ≤ a.nb_steps ∧ get_nb_steps env.run_stdout = Except.ok a.nb_steps := by
  unfold run_cairo_program at h
  by_cases hrc : env.run_returncode ≠ 0
  · rw [if_pos hrc] at h
    cases h
  · rw [if_neg hrc] at h
    cases hg : get_nb_steps env.run_stdout with
    | error msg => rw [hg] at h; cases h
    | ok n =>
      rw [hg] at h
      cases h
      exact ⟨get_nb_steps_nonneg _ _ hg, rfl⟩

/-- Witness for C7 (amended) at a concrete successful run. -/
theorem run_cairo_program_nb_steps_nonneg_witness :
    0 ≤ (ExecutionArtifacts.mk "out/fib_public_input.json" "out/fib_private_input.json"
          "out/fib_memory.bin" "out/fib_trace.bin" 512).nb_steps
    ∧ get_nb_steps "Number of steps: 512" =
        Except.ok (ExecutionArtifacts.mk "out/fib_public_input.json"
          "out/fib_private_input.json" "out/fib_memory.bin" "out/fib_trace.bin"
          512).nb_steps :=
  run_cairo_program_nb_steps_nonneg ⟨0, 0, "Number of steps: 512", 0⟩ "out" "fib" _ rfl

/-! ## Config synthesizer and pipeline driver -/

/-- C6: the Config Synthesizer is deterministic given the step count — two
artifact records with equal `nb_steps` produce identical configuration paths
and byte-identical document texts, regardless of the other artifact fields. -/
theorem generate_prover_config_deterministic (a1 a2 : ExecutionArtifacts)
    (dir : String) (h : a1.nb_steps = a2.nb_steps) :
    generate_prover_config a1 dir = generate_prover_config a2 dir := by
  unfold generate_prover_config
  rw [h]

/-- Witness for C6: two artifact records with different paths but the same
step count yield the same configuration documents. -/
theorem generate_prover_config_deterministic_witness :
    generate_prover_config ⟨"a", "b", "c", "d", 512⟩ "out" =
      generate_prover_config ⟨"e", "f", "g", "h", 512⟩ "out" :=
  generate_prover_config_deterministic ⟨"a", "b", "c", "d", 512⟩
    ⟨"e", "f", "g", "h", 512⟩ "out" rfl

/-- C5: when the execution tool exits non-zero the driver aborts: the run
never succeeds, the configuration is never synthesized and the prover is
never invoked (hence no proof file is created). -/
theorem main_aborts_on_run_failure (env : ToolEnv) (program : String)
    (program_is_file : Bool) (program_input : Option String)
    (program_input_is_file : Bool) (dir : String)
    (h : env.run_returncode ≠ 0) :
    (∀ p, (main env program program_is_file program_input
        program_input_is_file dir).result ≠ Except.ok p)
    ∧ (∀ ev ∈ (main env program program_is_file program_input
        program_input_is_file dir).events,
        ev.is_config_written = false ∧ ev.is_prover_invoked = false) := by
  have hrun : run_cairo_program env dir (path_stem program) =
      Except.error (PipelineError.external_tool_failure "cairo-run") := by
    unfold run_cairo_program
    rw [if_pos h]
  by_cases h1 : program_is_file
  · by_cases h2 : program_input.isSome && !program_input_is_file
    · constructor
      · intro p
        simp [main, h1, h2]
      · intro ev hev
        simp [main, h1, h2] at hev
    · by_cases h4 : program = dir ++ "/" ++ path_file_name program
      · by_cases h3 : env.compile_returncode ≠ 0
        · constructor
          · intro p
            simp [main, h1, h2, h3, if_pos h4]
          · intro ev hev
            simp [main, h1, h2, h3, if_pos h4] at hev
            subst hev
            exact ⟨rfl, rfl⟩
        · constructor
          · intro p
            simp [main, h1, h2, h3, if_pos h4, hrun]
          · intro ev hev
            simp [main, h1, h2, h3, if_pos h4, hrun] at hev
            rcases hev with hev | hev <;> subst hev <;> exact ⟨rfl, rfl⟩
      · by_cases h3 : env.compile_returncode ≠ 0
        · constructor
          · intro p
            simp [main, h1, h2, h3, h4]
          · intro ev hev
            simp [main, h1, h2, h3, h4] at hev
            rcases hev with hev | hev <;> subst hev <;> exact ⟨rfl, rfl⟩
        · constructor
          · intro p
            simp [main, h1, h2, h3, h4, hrun]
          · intro ev hev
            simp [main, h1, h2, h3, h4, hrun] at hev
            rcases hev with hev | hev | hev <;> subst hev <;> exact ⟨rfl, rfl⟩
  · constructor
    · intro p
      simp [main, h1]
    · intro ev hev
      simp [main, h1] at hev

/-- Witness for C5: a run whose execution tool exits with status 1 yields no
proof and never reaches the configure or prove stages. -/
theorem main_aborts_on_run_failure_witness :
    (∀ p, (main ⟨0, 1, "", 0⟩ "fib.cairo" true none true "out").result ≠ Except.ok p)
    ∧ (∀ ev ∈ (main ⟨0, 1, "", 0⟩ "fib.cairo" true none true "out").events,
        ev.is_config_written = false ∧ ev.is_prover_invoked = false) :=
  main_aborts_on_run_failure ⟨0, 1, "", 0⟩ "fib.cairo" true none true "out" (by decide)

/-- C8 counterexample: in a successful pipeline run on program `"fib.cairo"`
the parameter document is written to `"out/cpu_air_params.json"`: its file
name does not begin with the program base name `"fib"` followed by an
underscore, so not every created artifact is named
`<programBaseName>_<artifactKind>.<ext>`. -/
theorem config_file_name_not_program_derived :
    (main ⟨0, 0, "Number of steps: 512", 0⟩ "fib.cairo" true none true "out").events =
      [PipelineEvent.program_copied "out/fib.cairo",
       PipelineEvent.compiler_invoked "fib.cairo" "out/fib_compiled.json",
       PipelineEvent.runner_invoked "out/fib_compiled.json",
       PipelineEvent.config_written "out/cpu_air_prover_config.json"
         "out/cpu_air_params.json",
       PipelineEvent.prover_invoked "out/fib_proof.json"]
    ∧ path_stem "fib.cairo" = "fib"
    ∧ path_file_name "out/cpu_air_params.json" = "cpu_air_params.json"
    ∧ drop_marker ("fib" ++ "_").data "cpu_air_params.json".data = none :=
  ⟨rfl, rfl, rfl, rfl⟩

/-- C8 (amended): the artifacts derived from the program (public input,
private input, memory, trace — and, in the driver, the compiled program and
the proof) are named `<programBaseName>_<artifactKind>.<ext>` inside the
output directory, while the two generated configuration documents have the
fixed names `cpu_air_prover_config.json` and `cpu_air_params.json`,
independent of the program's base name. -/
theorem artifact_naming (env : ToolEnv) (dir name : String) (a : ExecutionArtifacts)
    (h : run_cairo_program env dir name = Except.ok a) :
    a.public_input = dir ++ "/" ++ name ++ "_public_input.json"
    ∧ a.private_input = dir ++ "/" ++ name ++ "_private_input.json"
    ∧ a.memory = dir ++ "/" ++ name ++ "_memory.bin"
    ∧ a.trace = dir ++ "/" ++ name ++ "_trace.bin"
    ∧ (generate_prover_config a dir).1.1 = dir ++ "/cpu_air_prover_config.json"
    ∧ (generate_prover_config a dir).2.1 = dir ++ "/cpu_air_params.json" := by
  unfold run_cairo_program at h
  by_cases hrc : env.run_returncode ≠ 0
  · rw [if_pos hrc] at h
    cases h
  · rw [if_neg hrc] at h
    cases hg : get_nb_steps env.run_stdout with
    | error msg => rw [hg] at h; cases h
    | ok n =>
      rw [hg] at h
      cases h
      exact ⟨rfl, rfl, rfl, rfl, rfl, rfl⟩

/-- Witness for C8 (amended) at a concrete successful run. -/
theorem artifact_naming_witness :
    (ExecutionArtifacts.mk "out/fib_public_input.json" "out/fib_private_input.json"
        "out/fib_memory.bin" "out/fib_trace.bin" 512).public_input =
      "out" ++ "/" ++ "fib" ++ "_public_input.json"
    ∧ (ExecutionArtifacts.mk "out/fib_public_input.json" "out/fib_private_input.json"
        "out/fib_memory.bin" "out/fib_trace.bin" 512).private_input =
      "out" ++ "/" ++ "fib" ++ "_private_input.json"
    ∧ (ExecutionArtifacts.mk "out/fib_public_input.json" "out/fib_private_input.json"
        "out/fib_memory.bin" "out/fib_trace.bin" 512).memory =
      "out" ++ "/" ++ "fib" ++ "_memory.bin"
    ∧ (ExecutionArtifacts.mk "out/fib_public_input.json" "out/fib_private_input.json"
        "out/fib_memory.bin" "out/fib_trace.bin" 512).trace =
      "out" ++ "/" ++ "fib" ++ "_trace.bin"
    ∧ (generate_prover_config (ExecutionArtifacts.mk "out/fib_public_input.json"
        "out/fib_private_input.json" "out/fib_memory.bin" "out/fib_trace.bin" 512)
        "out").1.1 = "out" ++ "/cpu_air_prover_config.json"
    ∧ (generate_prover_config (ExecutionArtifacts.mk "out/fib_public_input.json"
        "out/fib_private_input.json" "out/fib_memory.bin" "out/fib_trace.bin" 512)
        "out").2.1 = "out" ++ "/cpu_air_params.json" :=
  artifact_naming ⟨0, 0, "Number of steps: 512", 0⟩ "out" "fib" _ rfl

/-- C9: when the source program is already the file inside the output
directory (self-copy), the copy step is a no-op — no copy event occurs and no
error is raised — and the pipeline proceeds to the compile stage: the first
driver action is the compiler invocation. -/
theorem main_self_copy_noop (env : ToolEnv) (program : String)
    (program_input : Option String) (program_input_is_file : Bool) (dir : String)
    (hself : program = dir ++ "/" ++ path_file_name program)
    (hvalid : (program_input.isSome && !program_input_is_file) = false) :
    (main env program true program_input program_input_is_file dir).events.head? =
      some (PipelineEvent.compiler_invoked program
        (dir ++ "/" ++ path_stem program ++ "_compiled.json"))
    ∧ ∀ ev ∈ (main env program true program_input program_input_is_file dir).events,
        ev.is_program_copied = false := by
  by_cases h3 : env.compile_returncode ≠ 0
  · constructor
    · simp [main, hvalid, h3, if_pos hself]
    · intro ev hev
      simp [main, hvalid, h3, if_pos hself] at hev
      subst hev
      rfl
  · cases hr : run_cairo_program env dir (path_stem program) with
    | error e =>
      constructor
      · simp [main, hvalid, h3, hr, if_pos hself]
      · intro ev hev
        simp [main, hvalid, h3, hr, if_pos hself] at hev
        rcases hev with hev | hev <;> subst hev <;> rfl
    | ok artifacts =>
      by_cases hp : env.prover_returncode ≠ 0
      · constructor
        · simp [main, hvalid, h3, hr, hp, if_pos hself]
        · intro ev hev
          simp [main, hvalid, h3, hr, hp, if_pos hself] at hev
          rcases hev with hev | hev | hev | hev <;> subst hev <;> rfl
      · constructor
        · simp [main, hvalid, h3, hr, hp, if_pos hself]
        · intro ev hev
          simp [main, hvalid, h3, hr, hp, if_pos hself] at hev
          rcases hev with hev | hev | hev | hev <;> subst hev <;> rfl

/-- Witness for C9: running the pipeline on `"out/fib.cairo"` with output
directory `"out"` skips the copy and proceeds to compile. -/
theorem main_self_copy_noop_witness :
    (main ⟨0, 0, "Number of steps: 512", 0⟩ "out/fib.cairo" true none true
        "out").events.head? =
      some (PipelineEvent.compiler_invoked "out/fib.cairo"
        ("out" ++ "/" ++ path_stem "out/fib.cairo" ++ "_compiled.json"))
    ∧ ∀ ev ∈ (main ⟨0, 0, "Number of steps: 512", 0⟩ "out/fib.cairo" true none true
        "out").events,
        ev.is_program_copied = false :=
  main_self_copy_noop ⟨0, 0, "Number of steps: 512", 0⟩ "out/fib.cairo" none true "out"
    (by decide) (by decide)
